import Mathlib

/-!
Verification of the contact-form submission pipeline
(`backend/lambda_functions/contact_form.py`).

Strings are modelled as `List Char` (Python `len` counts code points, so
`List.length` matches `len`).  The external collaborators are modelled as
explicit inputs: `json.loads` is a `parse` function passed to the handler,
and the outcomes of the DynamoDB put and the two SES sends, together with
the freshly drawn UUID and the current time, are packed into an `Effects`
value. All definitions are executable.
-/

set_option maxRecDepth 4000

/-- Double-quote character (written numerically to keep literals simple). -/
def quotC : Char := Char.ofNat 34

/-- Apostrophe character. -/
def apoC : Char := Char.ofNat 39

/-- Newline character. -/
def nlC : Char := Char.ofNat 10

/-- ASCII whitespace recognised by Python `str.strip()`:
space, tab, newline, carriage return, vertical tab, form feed. -/
def isPySpace (c : Char) : Bool :=
  c = Char.ofNat 32 || c = Char.ofNat 9 || c = Char.ofNat 10 ||
  c = Char.ofNat 13 || c = Char.ofNat 11 || c = Char.ofNat 12

/-- Python `str.strip()` (ASCII fragment): drop whitespace from both ends. -/
def pyStrip (cs : List Char) : List Char :=
  ((cs.dropWhile isPySpace).reverse.dropWhile isPySpace).reverse

/-- Python `str.lower()` on one character (ASCII fragment; every string this
is applied to in the pipeline has passed the ASCII-only email regex). -/
def pyLowerChar (c : Char) : Char :=
  if 65 ≤ c.toNat ∧ c.toNat ≤ 90 then Char.ofNat (c.toNat + 32) else c

/-- Python `str.lower()` (ASCII fragment). -/
def pyLower (cs : List Char) : List Char := cs.map pyLowerChar

/-- Python `text.replace(c, r)` for a one-character needle `c`:
each occurrence of `c` is replaced by `r`, all other characters kept. -/
def replaceChar (c : Char) (r : List Char) : List Char → List Char
  | [] => []
  | x :: xs => (if x = c then r else [x]) ++ replaceChar c r xs

/-- `sanitize_input` from `contact_form.py`: empty input yields empty output;
otherwise truncate to `maxLength` characters and run the five sequential
`str.replace` passes, ampersand first. -/
def sanitize_input (text : List Char) (maxLength : Nat) : List Char :=
  if text = [] then []
  else
    let t1 := text.take maxLength
    let t2 := replaceChar '&' "&amp;".data t1
    let t3 := replaceChar '<' "&lt;".data t2
    let t4 := replaceChar '>' "&gt;".data t3
    let t5 := replaceChar quotC "&quot;".data t4
    replaceChar apoC "&#x27;".data t5

/-- Specification-side single-pass escape of one character: the entity form
for the five HTML-significant characters, the character itself otherwise. -/
def escapeChar (c : Char) : List Char :=
  if c = '&' then "&amp;".data
  else if c = '<' then "&lt;".data
  else if c = '>' then "&gt;".data
  else if c = quotC then "&quot;".data
  else if c = apoC then "&#x27;".data
  else [c]

/-- Specification-side single-pass escape of a whole string. -/
def escapeAll : List Char → List Char
  | [] => []
  | x :: xs => escapeChar x ++ escapeAll xs

/-- Characters allowed by the regex character class `[a-zA-Z0-9._%+-]`
(the local part of `validate_email`). -/
def isLocalChar (c : Char) : Bool :=
  c.isAlphanum || c = '.' || c = '_' || c = '%' || c = '+' || c = '-'

/-- Characters allowed by the regex character class `[a-zA-Z0-9.-]`
(the domain part of `validate_email`). -/
def isDomainChar (c : Char) : Bool :=
  c.isAlphanum || c = '.' || c = '-'

/-- Backtracking match of the regex fragment `[a-zA-Z0-9.-]+\.[a-zA-Z]{2,}`
against the whole of `ds`: some dot position splits `ds` into a non-empty
domain-character run and a trailing run of at least two ASCII letters. -/
def validDomain (ds : List Char) : Bool :=
  (List.range ds.length).any fun j =>
    decide (ds.get? j = some '.' ∧ 0 < j ∧
      (ds.take j).all isDomainChar = true ∧
      (ds.drop (j+1)).all Char.isAlpha = true ∧
      2 ≤ ds.length - (j+1))

/-- Backtracking match of `[a-zA-Z0-9._%+-]+@[a-zA-Z0-9.-]+\.[a-zA-Z]{2,}`
against the whole input. -/
def coreEmail (cs : List Char) : Bool :=
  (List.range cs.length).any fun i =>
    decide (cs.get? i = some '@' ∧ 0 < i ∧
      (cs.take i).all isLocalChar = true ∧
      validDomain (cs.drop (i+1)) = true)

/-- `validate_email` from `contact_form.py`:
`bool(re.match(r'^[a-zA-Z0-9._%+-]+@[a-zA-Z0-9.-]+\.[a-zA-Z]{2,}$', email))`.
Python `$` matches at the end of the string or just before one trailing
newline, hence the second disjunct. -/
def validate_email (cs : List Char) : Bool :=
  coreEmail cs ||
    (decide (cs.getLast? = some nlC) && coreEmail cs.dropLast)

/-- Declarative shape of the language of the email regex core: the input
splits as `local ++ [at] ++ domain ++ [dot] ++ tld` with a non-empty local
part over `[a-zA-Z0-9._%+-]`, a non-empty domain run over `[a-zA-Z0-9.-]`,
and a TLD of at least two ASCII letters. -/
def EmailCore (cs : List Char) : Prop :=
  ∃ l d t, cs = l ++ '@' :: (d ++ '.' :: t) ∧ l ≠ [] ∧
    l.all isLocalChar = true ∧ d ≠ [] ∧ d.all isDomainChar = true ∧
    t.all Char.isAlpha = true ∧ 2 ≤ t.length

/-- Email shape exactly as the specification sentence describes it: a
non-empty local part over alphanumerics and `._%+-`, an `@`, a part
containing at least one dot whose final label is two or more ASCII letters.
(No domain character-class restriction, no trailing-newline allowance:
the sentence mentions neither.) -/
def claimedEmailShape (cs : List Char) : Bool :=
  (List.range cs.length).any fun i =>
    decide (cs.get? i = some '@' ∧ 0 < i ∧
      (cs.take i).all isLocalChar = true ∧
      ((List.range (cs.drop (i+1)).length).any fun j =>
        decide ((cs.drop (i+1)).get? j = some '.' ∧
          ((cs.drop (i+1)).drop (j+1)).all Char.isAlpha = true ∧
          2 ≤ (cs.drop (i+1)).length - (j+1))) = true)

/-- Validation error string. -/
def errNameReq : List Char := "Name is required".data

/-- Validation error string. -/
def errEmailReq : List Char := "Email is required".data

/-- Validation error string. -/
def errEmailFmt : List Char := "Invalid email format".data

/-- Validation error string. -/
def errMsgReq : List Char := "Message is required".data

/-- Validation error string. -/
def errNameLen : List Char := "Name must be less than 200 characters".data

/-- Validation error string. -/
def errSubjLen : List Char := "Subject must be less than 500 characters".data

/-- Validation error string. -/
def errMsgLen : List Char := "Message must be less than 10,000 characters".data

/-- A parsed request body as the handler sees it: a dictionary whose four
known keys are present or absent (`data.get(key, default)` semantics).
Values are strings; a body carrying other value types is `PyVal.nonDict`
territory below. -/
structure FormData where
  name : Option (List Char)
  email : Option (List Char)
  subject : Option (List Char)
  message : Option (List Char)
deriving DecidableEq

/-- `validate_contact_form` from `contact_form.py`: the six checks append
their error strings in source order; missing keys default to the empty
string; format and length checks run on the raw, un-stripped value. -/
def validate_contact_form (d : FormData) : List (List Char) :=
  (if pyStrip (d.name.getD []) = [] then [errNameReq] else []) ++
  (if pyStrip (d.email.getD []) = [] then [errEmailReq]
   else if validate_email (d.email.getD []) = false then [errEmailFmt] else []) ++
  (if pyStrip (d.message.getD []) = [] then [errMsgReq] else []) ++
  (if 200 < (d.name.getD []).length then [errNameLen] else []) ++
  (if 500 < (d.subject.getD []).length then [errSubjLen] else []) ++
  (if 10000 < (d.message.getD []).length then [errMsgLen] else [])

/-- The canonical contact record built by `lambda_handler`. -/
structure Contact where
  contactId : List Char
  name : List Char
  email : List Char
  subject : List Char
  message : List Char
  timestamp : List Char
  status : List Char
deriving DecidableEq

/-- Outcomes of the external collaborators and sources of nondeterminism for
one invocation: the freshly drawn UUID4 canonical string, the current time
string, the `STORE_CONTACTS` configuration flag, and the transport results
of the DynamoDB put and the two SES sends. -/
structure Effects where
  uuid : List Char
  now : List Char
  storeContactsFlag : Bool
  storePutOk : Bool
  staffSendOk : Bool
  replySendOk : Bool
deriving DecidableEq

/-- The record construction step of `lambda_handler` (source lines 366-375):
id from the first 8 characters of the UUID string, name/subject/message
stripped then sanitized with their caps, email stripped and lowercased
without sanitization, subject defaulting only when the key is absent. -/
def buildContact (fx : Effects) (d : FormData) : Contact :=
  ⟨"CONTACT-".data ++ fx.uuid.take 8,
   sanitize_input (pyStrip (d.name.getD [])) 200,
   pyLower (pyStrip (d.email.getD [])),
   sanitize_input (pyStrip (d.subject.getD "General Inquiry".data)) 500,
   sanitize_input (pyStrip (d.message.getD [])) 10000,
   fx.now ++ "Z".data,
   "new".data⟩

/-- `store_contact`: reports success without touching the store when the
`STORE_CONTACTS` flag is off, otherwise the put outcome (a `ClientError`
is caught and returned as `false`). -/
def store_contact (fx : Effects) (c : Contact) : Bool :=
  if fx.storeContactsFlag = false then true else fx.storePutOk

/-- `send_email`: the SES call outcome, abstracted to the transport result
(a `ClientError` is caught and returned as `false`); the recipient list and
subject do not influence the modelled outcome.  The HTML body argument is
omitted: it never affects control flow. -/
def send_email (transportOk : Bool) (toEmails : List (List Char))
    (subject : List Char) : Bool :=
  transportOk

/-- The configured staff recipient list (defaults from the source). -/
def STAFF_EMAILS : List (List Char) :=
  ["arturo@rrinconline.com".data, "ramonecardonna@gmail.com".data]

/-- The fixed header dictionary built by `build_cors_response`. -/
structure Headers where
  contentType : List Char
  allowOrigin : List Char
  allowHeaders : List Char
  allowMethods : List Char
deriving DecidableEq

/-- The JSON response body, with one optional slot per key the source ever
puts in a response dictionary. -/
structure RespBody where
  success : Option Bool
  message : Option (List Char)
  error : Option (List Char)
  details : Option (List (List Char))
  contactId : Option (List Char)
deriving DecidableEq

/-- An API Gateway response value. -/
structure Response where
  statusCode : Nat
  headers : Headers
  body : RespBody
deriving DecidableEq

/-- The header dictionary the source writes into every response. -/
def stdHeaders : Headers :=
  ⟨"application/json".data,
   "*".data,
   "Content-Type,X-Amz-Date,Authorization,X-Api-Key,X-Amz-Security-Token".data,
   "POST,OPTIONS".data⟩

/-- `build_cors_response`: fixed headers, given status and body. -/
def build_cors_response (statusCode : Nat) (body : RespBody) : Response :=
  ⟨statusCode, stdHeaders, body⟩

/-- A Python value a request body can resolve to after JSON parsing: a
dictionary of form fields, or anything else (list, string, number, null —
on which `validate_contact_form` would raise `AttributeError`). -/
inductive PyVal where
  | dict (d : FormData)
  | nonDict
deriving DecidableEq

/-- The `body` entry of the event: a raw string still to be JSON-parsed, or
an already structured value. -/
inductive Body where
  | str (s : List Char)
  | val (v : PyVal)
deriving DecidableEq

/-- An API Gateway event: the `httpMethod` and `body` entries the handler
reads (absent entries are `none`). -/
structure Event where
  httpMethod : Option (List Char)
  body : Option Body
deriving DecidableEq

/-- Resolution of the request body (source lines 345-354): an absent body
defaults to the empty string; a string body goes through `json.loads`
(modelled by `parse`, `none` meaning `JSONDecodeError`); a non-string body
is used as is. -/
def resolveBody (parse : List Char → Option PyVal) (ev : Event) : Option PyVal :=
  match ev.body.getD (Body.str []) with
  | Body.str s => parse s
  | Body.val v => some v

/-- Fixed response-body strings of the handler. -/
def msgPreflight : List Char := "CORS preflight successful".data

/-- Fixed response-body strings of the handler. -/
def errInvalidJson : List Char := "Invalid JSON in request body".data

/-- Fixed response-body strings of the handler. -/
def errInternal : List Char := "Internal server error".data

/-- Fixed response-body strings of the handler. -/
def errValidationFailed : List Char := "Validation failed".data

/-- Fixed response-body strings of the handler. -/
def msgSuccess : List Char :=
  "Your message has been received. We will get back to you soon!".data

/-- `lambda_handler` from `contact_form.py`: OPTIONS preflight shortcut,
body parsing, validation, record construction, best-effort store and the
two best-effort sends (their boolean outcomes are logged and ignored), and
the response for each path.  A non-dictionary parsed body raises inside
`validate_contact_form` and lands in the generic `except Exception` arm. -/
def lambda_handler (parse : List Char → Option PyVal) (fx : Effects)
    (ev : Event) : Response :=
  if ev.httpMethod = some "OPTIONS".data then
    build_cors_response 200 ⟨none, some msgPreflight, none, none, none⟩
  else
    match resolveBody parse ev with
    | none =>
        build_cors_response 400 ⟨some false, none, some errInvalidJson, none, none⟩
    | some PyVal.nonDict =>
        build_cors_response 500 ⟨some false, none, some errInternal, none, none⟩
    | some (PyVal.dict d) =>
        if validate_contact_form d ≠ [] then
          build_cors_response 400
            ⟨some false, none, some errValidationFailed,
             some (validate_contact_form d), none⟩
        else
          let contact := buildContact fx d
          let _stored := store_contact fx contact
          let _staffSent := send_email fx.staffSendOk STAFF_EMAILS
            ("Contact Form: ".data ++ contact.subject.take 50)
          let _replySent := send_email fx.replySendOk [contact.email]
            "Thank you for contacting Sticker & Magnet Lab".data
          build_cors_response 200
            ⟨some true, some msgSuccess, none, none, some contact.contactId⟩

/-- One of the five HTML-significant characters. -/
def htmlSig (c : Char) : Bool :=
  c = '&' || c = '<' || c = '>' || c = quotC || c = apoC

/-- No character of the string is HTML-significant. -/
def htmlFree (cs : List Char) : Bool := cs.all fun c => !htmlSig c

/-- No character of the string is a raw markup delimiter or quote
(ampersand excluded: escaped output legitimately contains entity
ampersands). -/
def noRawDelims (cs : List Char) : Bool :=
  cs.all fun c => !(c = '<' || c = '>' || c = quotC || c = apoC)

/-- A lowercase hexadecimal digit, as produced by `str(uuid.uuid4())`. -/
def isHexLower (c : Char) : Bool :=
  c.isDigit || (97 ≤ c.toNat && c.toNat ≤ 102)

/-- Sample valid form submission (witness fixture). -/
def goodForm : FormData :=
  ⟨some "John Doe".data, some "john@example.com".data, none,
   some "Hi there".data⟩

/-- Sample invalid form submission (bad email format; witness fixture). -/
def badForm : FormData :=
  ⟨some "John Doe".data, some "not-an-email".data, none,
   some "Hi there".data⟩

/-- Sample collaborator outcomes with every transport failing (witness
fixture: failures must not change the success response). -/
def fxSample : Effects :=
  ⟨"12345678-1234-4123-8abc-1234567890ab".data,
   "2026-10-12T00:00:00".data, true, false, false, false⟩

/-- Sample POST event (witness fixture; the body string is irrelevant
because the parse function is passed explicitly). -/
def postEvent : Event := ⟨some "POST".data, some (Body.str "{}".data)⟩

/-- Sample OPTIONS preflight event (witness fixture). -/
def optionsEvent : Event := ⟨some "OPTIONS".data, none⟩

/-- A parse function returning a fixed value (witness fixture). -/
def parseTo (v : PyVal) : List Char → Option PyVal := fun _ => some v

/-- A parse function that always fails, as `json.loads` does on malformed
input (witness fixture). -/
def parseFail : List Char → Option PyVal := fun _ => none

/-- The five sequential replace passes of `sanitize_input`, ampersand first,
as a function of the already-truncated text. -/
def seq5 (t : List Char) : List Char :=
  replaceChar apoC "&#x27;".data (replaceChar quotC "&quot;".data
    (replaceChar '>' "&gt;".data (replaceChar '<' "&lt;".data
      (replaceChar '&' "&amp;".data t))))

theorem replaceChar_append (c : Char) (r a b : List Char) :
    replaceChar c r (a ++ b) = replaceChar c r a ++ replaceChar c r b := by
  induction a with
  | nil => simp [replaceChar]
  | cons x xs ih => simp [replaceChar, ih, List.append_assoc]

theorem seq5_append (a b : List Char) : seq5 (a ++ b) = seq5 a ++ seq5 b := by
  simp [seq5, replaceChar_append]

theorem seq5_single (x : Char) : seq5 [x] = escapeChar x := by
  by_cases h1 : x = '&'
  · subst h1; decide
  · by_cases h2 : x = '<'
    · subst h2; decide
    · by_cases h3 : x = '>'
      · subst h3; decide
      · by_cases h4 : x = quotC
        · subst h4; decide
        · by_cases h5 : x = apoC
          · subst h5; decide
          · simp [seq5, replaceChar, escapeChar, h1, h2, h3, h4, h5]

theorem seq5_eq_escapeAll (t : List Char) : seq5 t = escapeAll t := by
  induction t with
  | nil => decide
  | cons x xs ih =>
      show seq5 ([x] ++ xs) = escapeAll (x :: xs)
      rw [seq5_append, seq5_single, ih]
      rfl

theorem sanitize_input_ne_nil (t : List Char) (n : Nat) (h : t ≠ []) :
    sanitize_input t n = seq5 (t.take n) := by
  unfold sanitize_input
  rw [if_neg h]
  rfl

theorem escapeAll_append (a b : List Char) :
    escapeAll (a ++ b) = escapeAll a ++ escapeAll b := by
  induction a with
  | nil => rfl
  | cons x xs ih => simp [escapeAll, ih]

/-- C3: `sanitize_input(s, n)` first truncates `s` to its first `n` raw
characters and then entity-escapes the five HTML-significant characters,
ampersand first, in one effective pass (the sequential replaces never
double-escape within one call); the post-escaping length may exceed `n`;
empty input yields the empty string. -/
theorem C3_truncate_then_escape :
    (∀ t n, sanitize_input t n = escapeAll (t.take n)) ∧
    (∃ t n, n < (sanitize_input t n).length) ∧
    (∀ n, sanitize_input [] n = []) := by
  refine ⟨?_, ⟨"&".data, 1, by decide⟩, fun n => rfl⟩
  intro t n
  by_cases h : t = []
  · subst h; simp [sanitize_input, escapeAll]
  · rw [sanitize_input_ne_nil t n h, seq5_eq_escapeAll]

/-- C4: `sanitize_input` is not idempotent — any occurrence of the
already-escaped entity `&amp;` in the input is double-escaped to
`&amp;amp;` whenever the cap is large enough that no truncation occurs. -/
theorem C4_double_escape (u v : List Char) (n : Nat)
    (h : (u ++ "&amp;".data ++ v).length ≤ n) :
    sanitize_input (u ++ "&amp;".data ++ v) n =
      escapeAll u ++ "&amp;amp;".data ++ escapeAll v := by
  have hne : u ++ "&amp;".data ++ v ≠ [] := by simp
  rw [sanitize_input_ne_nil _ _ hne, List.take_of_length_le h,
    seq5_eq_escapeAll, escapeAll_append, escapeAll_append]
  have hamp : escapeAll "&amp;".data = "&amp;amp;".data := by decide
  rw [hamp]

/-- C4 witness: concrete double-escaping of `a&amp;b` with cap 9. -/
theorem C4_double_escape_witness :
    ("a".data ++ "&amp;".data ++ "b".data).length ≤ 9 ∧
    sanitize_input ("a".data ++ "&amp;".data ++ "b".data) 9 =
      escapeAll "a".data ++ "&amp;amp;".data ++ escapeAll "b".data :=
  ⟨by decide, C4_double_escape "a".data "b".data 9 (by decide)⟩

theorem any_range_iff (n : Nat) (p : Nat → Bool) :
    (List.range n).any p = true ↔ ∃ i, i < n ∧ p i = true := by
  simp [List.any_eq_true, List.mem_range]

theorem split_at_get? {α : Type} {cs : List α} {i : Nat} {c : α}
    (h : cs.get? i = some c) :
    cs = cs.take i ++ c :: cs.drop (i+1) := by
  induction cs generalizing i with
  | nil => simp at h
  | cons x xs ih =>
      cases i with
      | zero =>
          rw [List.get?_cons_zero, Option.some_inj] at h
          subst h
          simp
      | succ j =>
          rw [List.get?_cons_succ] at h
          have hx := ih h
          simp only [List.take_succ_cons, List.drop_succ_cons, List.cons_append]
          rw [← hx]

theorem validDomain_iff (ds : List Char) :
    validDomain ds = true ↔
      ∃ d t, ds = d ++ '.' :: t ∧ d ≠ [] ∧ d.all isDomainChar = true ∧
        t.all Char.isAlpha = true ∧ 2 ≤ t.length := by
  constructor
  · intro h
    obtain ⟨j, hj, hp⟩ := (any_range_iff _ _).mp h
    obtain ⟨hdot, hpos, hdom, halpha, hlen⟩ := of_decide_eq_true hp
    refine ⟨ds.take j, ds.drop (j+1), split_at_get? hdot, ?_, hdom, halpha, ?_⟩
    · intro hnil
      rcases List.take_eq_nil_iff.mp hnil with h0 | h0
      · omega
      · subst h0; simp at hj
    · rw [List.length_drop]
      exact hlen
  · rintro ⟨d, t, rfl, hd, hdom, halpha, hlen⟩
    apply (any_range_iff _ _).mpr
    refine ⟨d.length, ?_, decide_eq_true ?_⟩
    · simp only [List.length_append, List.length_cons]
      omega
    · refine ⟨?_, List.length_pos.mpr hd, ?_, ?_, ?_⟩
      · rw [List.get?_append_right (Nat.le_refl _)]
        simp
      · rw [List.take_left]
        exact hdom
      · have heq : d ++ '.' :: t = (d ++ ['.']) ++ t := by simp
        rw [heq, List.drop_left' (by simp)]
        exact halpha
      · simp only [List.length_append, List.length_cons]
        omega

theorem coreEmail_iff (cs : List Char) : coreEmail cs = true ↔ EmailCore cs := by
  constructor
  · intro h
    obtain ⟨i, hi, hp⟩ := (any_range_iff _ _).mp h
    obtain ⟨hat, hpos, hloc, hdom⟩ := of_decide_eq_true hp
    obtain ⟨d, t, hsplit, hd, hdomc, halpha, hlen⟩ := (validDomain_iff _).mp hdom
    refine ⟨cs.take i, d, t, ?_, ?_, hloc, hd, hdomc, halpha, hlen⟩
    · rw [← hsplit]
      exact split_at_get? hat
    · intro hnil
      rcases List.take_eq_nil_iff.mp hnil with h0 | h0
      · omega
      · subst h0; simp at hi
  · rintro ⟨l, d, t, rfl, hl, hloc, hd, hdomc, halpha, hlen⟩
    apply (any_range_iff _ _).mpr
    refine ⟨l.length, ?_, decide_eq_true ?_⟩
    · simp only [List.length_append, List.length_cons]
      omega
    · refine ⟨?_, List.length_pos.mpr hl, ?_, ?_⟩
      · rw [List.get?_append_right (Nat.le_refl _)]
        simp
      · rw [List.take_left]
        exact hloc
      · have heq : l ++ '@' :: (d ++ '.' :: t) = (l ++ ['@']) ++ (d ++ '.' :: t) := by
          simp
        rw [heq, List.drop_left' (by simp)]
        exact (validDomain_iff _).mpr ⟨d, t, rfl, hd, hdomc, halpha, hlen⟩

theorem concat_last_iff (P : List Char → Prop) (cs : List Char) (c : Char) :
    (cs.getLast? = some c ∧ P cs.dropLast) ↔ ∃ u, cs = u ++ [c] ∧ P u := by
  constructor
  · rintro ⟨hl, hp⟩
    have hne : cs ≠ [] := by
      intro h
      subst h
      simp at hl
    refine ⟨cs.dropLast, ?_, hp⟩
    have h2 := List.dropLast_concat_getLast hne
    have h3 : cs.getLast hne = c := by
      rw [List.getLast?_eq_getLast cs hne, Option.some_inj] at hl
      exact hl
    rw [← h3]
    exact h2.symm
  · rintro ⟨u, rfl, hp⟩
    refine ⟨List.getLast?_concat u, ?_⟩
    rw [List.dropLast_concat]
    exact hp

theorem validate_email_iff (cs : List Char) :
    validate_email cs = true ↔
      (EmailCore cs ∨ ∃ u, cs = u ++ [nlC] ∧ EmailCore u) := by
  unfold validate_email
  rw [Bool.or_eq_true, Bool.and_eq_true, coreEmail_iff]
  constructor
  · rintro (h | ⟨h1, h2⟩)
    · exact Or.inl h
    · exact Or.inr ((concat_last_iff EmailCore cs nlC).mp
        ⟨of_decide_eq_true h1, (coreEmail_iff _).mp h2⟩)
  · rintro (h | h)
    · exact Or.inl h
    · obtain ⟨h1, h2⟩ := (concat_last_iff EmailCore cs nlC).mpr h
      exact Or.inr ⟨decide_eq_true h1, (coreEmail_iff _).mpr h2⟩

/-- C5 counterexample: the code accepts `user@example.com` followed by a
trailing newline (Python `re` lets `$` match just before a final newline),
but that string is not of the claimed `local@domain.tld` shape — its final
label is not made of letters only.  So `validate_email` does not return
True exactly on the claimed set. -/
theorem C5_counterexample :
    validate_email "user@example.com\n".data = true ∧
    claimedEmailShape "user@example.com\n".data = false :=
  ⟨by decide, by decide⟩

/-- C5 (amended): `validate_email` returns True exactly for strings of the
shape `local@domain.tld` — non-empty local part over alphanumerics and
`._%+-`, non-empty domain over alphanumerics, dots and hyphens, final label
of at least 2 ASCII letters — optionally followed by one trailing newline;
in particular every string lacking an `@`, or lacking a dot anywhere, is
rejected. -/
theorem C5_email_exact_shape :
    (∀ cs, validate_email cs = true ↔
      (EmailCore cs ∨ ∃ u, cs = u ++ [nlC] ∧ EmailCore u)) ∧
    (∀ cs, '@' ∉ cs → validate_email cs = false) ∧
    (∀ cs, '.' ∉ cs → validate_email cs = false) := by
  refine ⟨validate_email_iff, ?_, ?_⟩
  · intro cs hat
    cases hv : validate_email cs with
    | false => rfl
    | true =>
        exfalso
        apply hat
        rcases (validate_email_iff cs).mp hv with ⟨l, d, t, rfl, _⟩ |
          ⟨u, rfl, l, d, t, rfl, _⟩
        · simp
        · simp
  · intro cs hdot
    cases hv : validate_email cs with
    | false => rfl
    | true =>
        exfalso
        apply hdot
        rcases (validate_email_iff cs).mp hv with ⟨l, d, t, rfl, _⟩ |
          ⟨u, rfl, l, d, t, rfl, _⟩
        · simp
        · simp

theorem sig_chars (c : Char) (h : htmlSig c = true) :
    c = '&' ∨ c = '<' ∨ c = '>' ∨ c = quotC ∨ c = apoC := by
  simp only [htmlSig, Bool.or_eq_true, decide_eq_true_eq] at h
  tauto

theorem local_not_sig (c : Char) (h : isLocalChar c = true) :
    htmlSig c = false := by
  cases hs : htmlSig c with
  | false => rfl
  | true =>
      exfalso
      rcases sig_chars c hs with rfl | rfl | rfl | rfl | rfl
      all_goals exact absurd h (by decide)

theorem domain_not_sig (c : Char) (h : isDomainChar c = true) :
    htmlSig c = false := by
  cases hs : htmlSig c with
  | false => rfl
  | true =>
      exfalso
      rcases sig_chars c hs with rfl | rfl | rfl | rfl | rfl
      all_goals exact absurd h (by decide)

theorem alpha_not_sig (c : Char) (h : c.isAlpha = true) :
    htmlSig c = false := by
  cases hs : htmlSig c with
  | false => rfl
  | true =>
      exfalso
      rcases sig_chars c hs with rfl | rfl | rfl | rfl | rfl
      all_goals exact absurd h (by decide)

theorem emailcore_htmlFree {cs : List Char} (h : EmailCore cs) :
    htmlFree cs = true := by
  obtain ⟨l, d, t, rfl, _, hl, _, hd, ht, _⟩ := h
  unfold htmlFree
  apply List.all_eq_true.mpr
  intro c hc
  simp only [List.mem_append, List.mem_cons] at hc
  have hsig : htmlSig c = false := by
    rcases hc with hc | rfl | hc | rfl | hc
    · exact local_not_sig c (List.all_eq_true.mp hl c hc)
    · decide
    · exact domain_not_sig c (List.all_eq_true.mp hd c hc)
    · decide
    · exact alpha_not_sig c (List.all_eq_true.mp ht c hc)
  simp [hsig]

theorem validate_email_htmlFree (e : List Char) (h : validate_email e = true) :
    htmlFree e = true := by
  rcases (validate_email_iff e).mp h with hc | ⟨u, rfl, hu⟩
  · exact emailcore_htmlFree hc
  · have h1 := emailcore_htmlFree hu
    unfold htmlFree at h1 ⊢
    rw [List.all_append, Bool.and_eq_true]
    exact ⟨h1, by decide⟩

theorem htmlFree_subset {a b : List Char} (hs : ∀ c, c ∈ a → c ∈ b)
    (h : htmlFree b = true) : htmlFree a = true := by
  unfold htmlFree at h ⊢
  apply List.all_eq_true.mpr
  intro c hc
  exact List.all_eq_true.mp h c (hs c hc)

theorem pyStrip_subset (cs : List Char) : ∀ c, c ∈ pyStrip cs → c ∈ cs := by
  intro c hc
  unfold pyStrip at hc
  rw [List.mem_reverse] at hc
  have hc2 := (List.dropWhile_sublist isPySpace).subset hc
  rw [List.mem_reverse] at hc2
  exact (List.dropWhile_sublist isPySpace).subset hc2

theorem sig_lower_range :
    ∀ n, n < 123 → 97 ≤ n → htmlSig (Char.ofNat n) = false := by decide

theorem lower_not_sig (c : Char) (h : htmlSig c = false) :
    htmlSig (pyLowerChar c) = false := by
  unfold pyLowerChar
  split
  · rename_i hcond
    exact sig_lower_range (c.toNat + 32) (by omega) (by omega)
  · exact h

theorem htmlFree_pyLower (cs : List Char) (h : htmlFree cs = true) :
    htmlFree (pyLower cs) = true := by
  unfold htmlFree at h ⊢
  unfold pyLower
  apply List.all_eq_true.mpr
  intro c hc
  rw [List.mem_map] at hc
  obtain ⟨c2, hc2, rfl⟩ := hc
  have h2 := List.all_eq_true.mp h c2 hc2
  rw [Bool.not_eq_true'] at h2 ⊢
  exact lower_not_sig c2 h2

theorem escapeChar_noRaw (c : Char) : noRawDelims (escapeChar c) = true := by
  by_cases h1 : c = '&'
  · subst h1; decide
  · by_cases h2 : c = '<'
    · subst h2; decide
    · by_cases h3 : c = '>'
      · subst h3; decide
      · by_cases h4 : c = quotC
        · subst h4; decide
        · by_cases h5 : c = apoC
          · subst h5; decide
          · simp [escapeChar, noRawDelims, h1, h2, h3, h4, h5]

theorem escapeAll_noRaw (cs : List Char) : noRawDelims (escapeAll cs) = true := by
  induction cs with
  | nil => decide
  | cons x xs ih =>
      show noRawDelims (escapeChar x ++ escapeAll xs) = true
      unfold noRawDelims at ih ⊢
      rw [List.all_append, Bool.and_eq_true]
      exact ⟨escapeChar_noRaw x, ih⟩

theorem sanitize_noRaw (cs : List Char) (n : Nat) :
    noRawDelims (sanitize_input cs n) = true := by
  by_cases h : cs = []
  · subst h
    rw [show sanitize_input [] n = [] from rfl]
    decide
  · rw [sanitize_input_ne_nil cs n h, seq5_eq_escapeAll]
    exact escapeAll_noRaw _

/-- C10: every string accepted by `validate_email` contains none of the five
HTML-significant characters, and this freedom survives the strip/lowercase
normalization, so the record's email field — which `buildContact` builds
without `sanitize_input` — is free of HTML-significant characters; the
sanitized fields never contain a raw angle bracket or quote character. -/
theorem C10_accepted_email_html_safe :
    (∀ e, validate_email e = true →
      htmlFree e = true ∧ htmlFree (pyLower (pyStrip e)) = true) ∧
    (∀ fx d, (buildContact fx d).email = pyLower (pyStrip (d.email.getD []))) ∧
    (∀ cs n, noRawDelims (sanitize_input cs n) = true) := by
  refine ⟨?_, fun fx d => rfl, sanitize_noRaw⟩
  intro e he
  have h1 := validate_email_htmlFree e he
  exact ⟨h1, htmlFree_pyLower _ (htmlFree_subset (pyStrip_subset e) h1)⟩

/-- C10 witness: a concrete accepted email (with uppercase letters and
surrounding whitespace handled by strip/lower) is HTML-free before and
after normalization. -/
theorem C10_accepted_email_html_safe_witness :
    htmlFree "John.Doe@Example.com".data = true ∧
    htmlFree (pyLower (pyStrip "John.Doe@Example.com".data)) = true :=
  C10_accepted_email_html_safe.1 "John.Doe@Example.com".data (by decide)

theorem mem_ite_nil {α : Type} (a b : α) (c : Prop) [Decidable c] :
    (a ∈ if c then [b] else []) ↔ c ∧ a = b := by
  split
  · rename_i hc
    simp [hc]
  · rename_i hc
    simp [hc]

theorem mem_ite_ite {α : Type} (a b1 b2 : α) (c1 c2 : Prop)
    [Decidable c1] [Decidable c2] :
    (a ∈ if c1 then [b1] else if c2 then [b2] else []) ↔
      (c1 ∧ a = b1) ∨ (¬c1 ∧ c2 ∧ a = b2) := by
  split
  · rename_i hc
    simp [hc]
  · rename_i hc
    split
    · rename_i hc2
      simp [hc, hc2]
    · rename_i hc2
      simp [hc, hc2]

theorem vm_nameReq (d : FormData) :
    errNameReq ∈ validate_contact_form d ↔ pyStrip (d.name.getD []) = [] := by
  simp [validate_contact_form, List.mem_append, mem_ite_nil, mem_ite_ite,
    show errNameReq ≠ errEmailReq from by decide,
    show errNameReq ≠ errEmailFmt from by decide,
    show errNameReq ≠ errMsgReq from by decide,
    show errNameReq ≠ errNameLen from by decide,
    show errNameReq ≠ errSubjLen from by decide,
    show errNameReq ≠ errMsgLen from by decide]

theorem vm_emailReq (d : FormData) :
    errEmailReq ∈ validate_contact_form d ↔ pyStrip (d.email.getD []) = [] := by
  simp [validate_contact_form, List.mem_append, mem_ite_nil, mem_ite_ite,
    show errEmailReq ≠ errNameReq from by decide,
    show errEmailReq ≠ errEmailFmt from by decide,
    show errEmailReq ≠ errMsgReq from by decide,
    show errEmailReq ≠ errNameLen from by decide,
    show errEmailReq ≠ errSubjLen from by decide,
    show errEmailReq ≠ errMsgLen from by decide]

theorem vm_emailFmt (d : FormData) :
    errEmailFmt ∈ validate_contact_form d ↔
      (¬ pyStrip (d.email.getD []) = [] ∧
        validate_email (d.email.getD []) = false) := by
  simp [validate_contact_form, List.mem_append, mem_ite_nil, mem_ite_ite,
    show errEmailFmt ≠ errNameReq from by decide,
    show errEmailFmt ≠ errEmailReq from by decide,
    show errEmailFmt ≠ errMsgReq from by decide,
    show errEmailFmt ≠ errNameLen from by decide,
    show errEmailFmt ≠ errSubjLen from by decide,
    show errEmailFmt ≠ errMsgLen from by decide]

theorem vm_msgReq (d : FormData) :
    errMsgReq ∈ validate_contact_form d ↔ pyStrip (d.message.getD []) = [] := by
  simp [validate_contact_form, List.mem_append, mem_ite_nil, mem_ite_ite,
    show errMsgReq ≠ errNameReq from by decide,
    show errMsgReq ≠ errEmailReq from by decide,
    show errMsgReq ≠ errEmailFmt from by decide,
    show errMsgReq ≠ errNameLen from by decide,
    show errMsgReq ≠ errSubjLen from by decide,
    show errMsgReq ≠ errMsgLen from by decide]

theorem vm_nameLen (d : FormData) :
    errNameLen ∈ validate_contact_form d ↔ 200 < (d.name.getD []).length := by
  simp [validate_contact_form, List.mem_append, mem_ite_nil, mem_ite_ite,
    show errNameLen ≠ errNameReq from by decide,
    show errNameLen ≠ errEmailReq from by decide,
    show errNameLen ≠ errEmailFmt from by decide,
    show errNameLen ≠ errMsgReq from by decide,
    show errNameLen ≠ errSubjLen from by decide,
    show errNameLen ≠ errMsgLen from by decide]

theorem vm_subjLen (d : FormData) :
    errSubjLen ∈ validate_contact_form d ↔ 500 < (d.subject.getD []).length := by
  simp [validate_contact_form, List.mem_append, mem_ite_nil, mem_ite_ite,
    show errSubjLen ≠ errNameReq from by decide,
    show errSubjLen ≠ errEmailReq from by decide,
    show errSubjLen ≠ errEmailFmt from by decide,
    show errSubjLen ≠ errMsgReq from by decide,
    show errSubjLen ≠ errNameLen from by decide,
    show errSubjLen ≠ errMsgLen from by decide]

theorem vm_msgLen (d : FormData) :
    errMsgLen ∈ validate_contact_form d ↔ 10000 < (d.message.getD []).length := by
  simp [validate_contact_form, List.mem_append, mem_ite_nil, mem_ite_ite,
    show errMsgLen ≠ errNameReq from by decide,
    show errMsgLen ≠ errEmailReq from by decide,
    show errMsgLen ≠ errEmailFmt from by decide,
    show errMsgLen ≠ errMsgReq from by decide,
    show errMsgLen ≠ errNameLen from by decide,
    show errMsgLen ≠ errSubjLen from by decide]

/-- C6: `validate_contact_form` fails additively — each of the seven error
strings is in the result exactly when its rule is violated (required fields
after trimming; email format on the raw value when non-blank; length
ceilings 200/500/10000 on the raw values) — and a missing required key,
treated as the empty string rather than raising, makes the result non-empty
and containing the message naming that field. -/
theorem C6_validator_additive (d : FormData) :
    (errNameReq ∈ validate_contact_form d ↔ pyStrip (d.name.getD []) = []) ∧
    (errEmailReq ∈ validate_contact_form d ↔ pyStrip (d.email.getD []) = []) ∧
    (errEmailFmt ∈ validate_contact_form d ↔
      (¬ pyStrip (d.email.getD []) = [] ∧
        validate_email (d.email.getD []) = false)) ∧
    (errMsgReq ∈ validate_contact_form d ↔ pyStrip (d.message.getD []) = []) ∧
    (errNameLen ∈ validate_contact_form d ↔ 200 < (d.name.getD []).length) ∧
    (errSubjLen ∈ validate_contact_form d ↔ 500 < (d.subject.getD []).length) ∧
    (errMsgLen ∈ validate_contact_form d ↔
      10000 < (d.message.getD []).length) ∧
    (d.name = none →
      validate_contact_form d ≠ [] ∧ errNameReq ∈ validate_contact_form d) ∧
    (d.email = none →
      validate_contact_form d ≠ [] ∧ errEmailReq ∈ validate_contact_form d) ∧
    (d.message = none →
      validate_contact_form d ≠ [] ∧ errMsgReq ∈ validate_contact_form d) := by
  refine ⟨vm_nameReq d, vm_emailReq d, vm_emailFmt d, vm_msgReq d,
    vm_nameLen d, vm_subjLen d, vm_msgLen d, ?_, ?_, ?_⟩
  · intro hn
    have hm : errNameReq ∈ validate_contact_form d :=
      (vm_nameReq d).mpr (by rw [hn]; rfl)
    exact ⟨List.ne_nil_of_mem hm, hm⟩
  · intro hn
    have hm : errEmailReq ∈ validate_contact_form d :=
      (vm_emailReq d).mpr (by rw [hn]; rfl)
    exact ⟨List.ne_nil_of_mem hm, hm⟩
  · intro hn
    have hm : errMsgReq ∈ validate_contact_form d :=
      (vm_msgReq d).mpr (by rw [hn]; rfl)
    exact ⟨List.ne_nil_of_mem hm, hm⟩

/-- C6 witness: the all-keys-missing submission is rejected with a
non-empty error list containing the name-required message. -/
theorem C6_validator_additive_witness :
    validate_contact_form (⟨none, none, none, none⟩ : FormData) ≠ [] ∧
    errNameReq ∈ validate_contact_form (⟨none, none, none, none⟩ : FormData) :=
  (C6_validator_additive ⟨none, none, none, none⟩).2.2.2.2.2.2.2.1 rfl

theorem handler_success_eq (parse : List Char → Option PyVal) (fx : Effects)
    (ev : Event) (d : FormData)
    (hm : ev.httpMethod ≠ some "OPTIONS".data)
    (hb : resolveBody parse ev = some (PyVal.dict d))
    (hv : validate_contact_form d = []) :
    lambda_handler parse fx ev = build_cors_response 200
      ⟨some true, some msgSuccess, none, none,
       some (buildContact fx d).contactId⟩ := by
  unfold lambda_handler
  rw [if_neg hm, hb]
  simp [hv]

/-- C1: whenever the body resolves to a dictionary and validation returns
no errors, the handler answers 200 with `success = true` and the generated
contact id — for every value of the store and send outcomes (the whole
`Effects` record is universally quantified). -/
theorem C1_success_regardless_of_effects (parse : List Char → Option PyVal)
    (fx : Effects) (ev : Event) (d : FormData)
    (hm : ev.httpMethod ≠ some "OPTIONS".data)
    (hb : resolveBody parse ev = some (PyVal.dict d))
    (hv : validate_contact_form d = []) :
    lambda_handler parse fx ev = build_cors_response 200
      ⟨some true, some msgSuccess, none, none,
       some ("CONTACT-".data ++ fx.uuid.take 8)⟩ :=
  handler_success_eq parse fx ev d hm hb hv

/-- C1 witness: a concrete valid submission with every collaborator failing
(store put, staff send, auto-reply send all `false`) still gets a 200
success response carrying the id. -/
theorem C1_success_regardless_of_effects_witness :
    postEvent.httpMethod ≠ some "OPTIONS".data ∧
    resolveBody (parseTo (PyVal.dict goodForm)) postEvent =
      some (PyVal.dict goodForm) ∧
    validate_contact_form goodForm = [] ∧
    lambda_handler (parseTo (PyVal.dict goodForm)) fxSample postEvent =
      build_cors_response 200
        ⟨some true, some msgSuccess, none, none,
         some ("CONTACT-".data ++ fxSample.uuid.take 8)⟩ :=
  ⟨by decide, by decide, by decide,
   C1_success_regardless_of_effects (parseTo (PyVal.dict goodForm)) fxSample
     postEvent goodForm (by decide) (by decide) (by decide)⟩

/-- C2: an unparseable body yields 400 `Invalid JSON in request body`, and
a validation failure yields 400 `Validation failed` with the error strings
as details; both responses are independent of the `Effects` record, i.e.
no record, store outcome or send outcome can influence them. -/
theorem C2_rejection_paths (parse : List Char → Option PyVal) (fx : Effects)
    (ev : Event) (hm : ev.httpMethod ≠ some "OPTIONS".data) :
    (resolveBody parse ev = none →
      lambda_handler parse fx ev = build_cors_response 400
        ⟨some false, none, some errInvalidJson, none, none⟩ ∧
      ∀ fx2, lambda_handler parse fx2 ev = lambda_handler parse fx ev) ∧
    (∀ d, resolveBody parse ev = some (PyVal.dict d) →
      validate_contact_form d ≠ [] →
      lambda_handler parse fx ev = build_cors_response 400
        ⟨some false, none, some errValidationFailed,
         some (validate_contact_form d), none⟩ ∧
      ∀ fx2, lambda_handler parse fx2 ev = lambda_handler parse fx ev) := by
  constructor
  · intro hb
    have he : ∀ fx3 : Effects, lambda_handler parse fx3 ev =
        build_cors_response 400
          ⟨some false, none, some errInvalidJson, none, none⟩ := by
      intro fx3
      unfold lambda_handler
      rw [if_neg hm, hb]
    exact ⟨he fx, fun fx2 => by rw [he fx2, he fx]⟩
  · intro d hb hv
    have he : ∀ fx3 : Effects, lambda_handler parse fx3 ev =
        build_cors_response 400
          ⟨some false, none, some errValidationFailed,
           some (validate_contact_form d), none⟩ := by
      intro fx3
      unfold lambda_handler
      rw [if_neg hm, hb]
      simp [hv]
    exact ⟨he fx, fun fx2 => by rw [he fx2, he fx]⟩

/-- C2 witness: the two concrete rejection paths — malformed JSON, and a
bad email format — both answer 400 with the documented bodies. -/
theorem C2_rejection_paths_witness :
    lambda_handler parseFail fxSample postEvent = build_cors_response 400
      ⟨some false, none, some errInvalidJson, none, none⟩ ∧
    lambda_handler (parseTo (PyVal.dict badForm)) fxSample postEvent =
      build_cors_response 400
        ⟨some false, none, some errValidationFailed,
         some (validate_contact_form badForm), none⟩ :=
  ⟨((C2_rejection_paths parseFail fxSample postEvent (by decide)).1
      (by decide)).1,
   ((C2_rejection_paths (parseTo (PyVal.dict badForm)) fxSample postEvent
      (by decide)).2 badForm (by decide) (by decide)).1⟩

/-- C7: on an accepted submission with a well-formed UUID4 string (at least
8 characters, the first 8 lowercase hexadecimal), the record id is
`CONTACT-` followed by exactly those 8 hex characters, and the success
response body carries exactly that id. -/
theorem C7_contact_id_shape (parse : List Char → Option PyVal) (fx : Effects)
    (ev : Event) (d : FormData)
    (hm : ev.httpMethod ≠ some "OPTIONS".data)
    (hb : resolveBody parse ev = some (PyVal.dict d))
    (hv : validate_contact_form d = [])
    (hu8 : 8 ≤ fx.uuid.length)
    (hhex : (fx.uuid.take 8).all isHexLower = true) :
    (buildContact fx d).contactId = "CONTACT-".data ++ fx.uuid.take 8 ∧
    (fx.uuid.take 8).length = 8 ∧
    (fx.uuid.take 8).all isHexLower = true ∧
    (lambda_handler parse fx ev).body.contactId =
      some ((buildContact fx d).contactId) := by
  refine ⟨rfl, ?_, hhex, ?_⟩
  · rw [List.length_take]
    omega
  · rw [handler_success_eq parse fx ev d hm hb hv]
    rfl

/-- C7 witness: the concrete accepted submission produces the id
`CONTACT-12345678` and returns it in the response body. -/
theorem C7_contact_id_shape_witness :
    (buildContact fxSample goodForm).contactId =
      "CONTACT-".data ++ fxSample.uuid.take 8 ∧
    (fxSample.uuid.take 8).length = 8 ∧
    (fxSample.uuid.take 8).all isHexLower = true ∧
    (lambda_handler (parseTo (PyVal.dict goodForm)) fxSample
      postEvent).body.contactId =
      some ((buildContact fxSample goodForm).contactId) :=
  C7_contact_id_shape (parseTo (PyVal.dict goodForm)) fxSample postEvent
    goodForm (by decide) (by decide) (by decide) (by decide) (by decide)

/-- C8 counterexample: the OPTIONS preflight path returns a body whose only
key is `message` — there is no `success` key at all — so the claim that
every path's body contains a boolean `success` is false. -/
theorem C8_counterexample :
    (lambda_handler parseFail fxSample optionsEvent).statusCode = 200 ∧
    (lambda_handler parseFail fxSample optionsEvent).body.success = none :=
  ⟨by decide, by decide⟩

/-- C8 (amended): every path of the handler returns the fixed header
dictionary (CORS triad plus `Content-Type: application/json`) and a status
code among 200, 400, 500; the body carries a boolean `success` on every
path except the OPTIONS preflight, whose body holds only a message. -/
theorem C8_response_shape (parse : List Char → Option PyVal) (fx : Effects)
    (ev : Event) :
    (lambda_handler parse fx ev).headers = stdHeaders ∧
    ((lambda_handler parse fx ev).statusCode = 200 ∨
     (lambda_handler parse fx ev).statusCode = 400 ∨
     (lambda_handler parse fx ev).statusCode = 500) ∧
    ((lambda_handler parse fx ev).body.success.isSome = true ∨
      ev.httpMethod = some "OPTIONS".data) := by
  by_cases hm : ev.httpMethod = some "OPTIONS".data
  · unfold lambda_handler
    rw [if_pos hm]
    exact ⟨rfl, Or.inl rfl, Or.inr hm⟩
  · cases hb : resolveBody parse ev with
    | none =>
        unfold lambda_handler
        rw [if_neg hm, hb]
        exact ⟨rfl, Or.inr (Or.inl rfl), Or.inl rfl⟩
    | some v =>
        cases v with
        | nonDict =>
            unfold lambda_handler
            rw [if_neg hm, hb]
            exact ⟨rfl, Or.inr (Or.inr rfl), Or.inl rfl⟩
        | dict d =>
            by_cases hv : validate_contact_form d = []
            · rw [handler_success_eq parse fx ev d hm hb hv]
              exact ⟨rfl, Or.inl rfl, Or.inl rfl⟩
            · have he : lambda_handler parse fx ev = build_cors_response 400
                  ⟨some false, none, some errValidationFailed,
                   some (validate_contact_form d), none⟩ := by
                unfold lambda_handler
                rw [if_neg hm, hb]
                simp [hv]
              rw [he]
              exact ⟨rfl, Or.inr (Or.inl rfl), Or.inl rfl⟩

/-- C9: the `General Inquiry` default applies only when the `subject` key
is absent from the parsed body; a present but blank subject produces the
empty string in the record, not the default. -/
theorem C9_subject_default_only_when_absent (fx : Effects) (d : FormData) :
    (d.subject = none →
      (buildContact fx d).subject = "General Inquiry".data) ∧
    (∀ s, d.subject = some s → pyStrip s = [] →
      (buildContact fx d).subject = []) := by
  constructor
  · intro h
    show sanitize_input (pyStrip (d.subject.getD "General Inquiry".data)) 500 = _
    rw [h]
    decide
  · intro s h hs
    show sanitize_input (pyStrip (d.subject.getD "General Inquiry".data)) 500 = _
    rw [h]
    show sanitize_input (pyStrip s) 500 = []
    rw [hs]
    rfl

/-- C9 witness: absent subject key yields the default; a whitespace-only
subject yields the empty string. -/
theorem C9_subject_default_only_when_absent_witness :
    (buildContact fxSample goodForm).subject = "General Inquiry".data ∧
    (buildContact fxSample
      (⟨some "John Doe".data, some "j@e.co".data, some "   ".data,
        some "Hi".data⟩ : FormData)).subject = [] :=
  ⟨(C9_subject_default_only_when_absent fxSample goodForm).1 rfl,
   (C9_subject_default_only_when_absent fxSample
      ⟨some "John Doe".data, some "j@e.co".data, some "   ".data,
       some "Hi".data⟩).2 "   ".data rfl (by decide)⟩
